import Mathlib

/-!
Shallow embedding of the query-construction and validation logic of
`src/api/bigquery_endpoints.py` (helper `validate_sensor_lla`, endpoints
`query_metadata_table` and `query_active_metadata`).

The warehouse client is abstracted as an execution outcome: each endpoint is a
pure function of the request fields and of the outcome the backend produces for
the query it is given (success rows or a count, the table-absent exception, a
cloud error, or any other exception). Query text is modelled byte for byte as
the Python f-strings render it, filter values as typed bound parameters.
-/

/-- Constant project id (line 26 of the source). -/
def PROJECT_ID : String := "iucc-f4d"

/-- Fully qualified table identifier, as the spec names it: dataset is the
owner/hostname and table is the device mac address suffixed with
underscore-metadata (lines 52-59 and 277-284 of the source). -/
structure TableIdentifier where
  project : String
  dataset : String
  table : String
deriving DecidableEq

/-- Table resolution, the pure composition both request paths perform. -/
def resolveTable (hostname mac_address : String) : TableIdentifier :=
  { project := PROJECT_ID, dataset := hostname, table := mac_address ++ "_metadata" }

/-- Rendering of the identifier in the form project.dataset.table. -/
def fullTableName (t : TableIdentifier) : String :=
  t.project ++ "." ++ t.dataset ++ "." ++ t.table

/-- Typed bound query parameter, mirroring bigquery.ScalarQueryParameter with
its STRING or INT64 type tag. -/
inductive ScalarQueryParameter where
  | string (name : String) (value : String)
  | int64 (name : String) (value : Int)
deriving DecidableEq

/-- A result row, a mapping of column name to value. -/
abbrev Row := List (String × String)

/-- Result dict of validate_sensor_lla (lines 112-174 of the source). -/
structure ValidationResult where
  is_valid : Bool
  message : String
  error : Option String
deriving DecidableEq

/-- Outcome of executing the validation query: the count row on success, the
NotFound exception when the table is absent, a GoogleCloudError, or any other
exception. -/
inductive ValidationExecOutcome where
  | success (count : Int)
  | notFound (msg : String)
  | googleCloudError (msg : String)
  | otherError (msg : String)
deriving DecidableEq

/-- Text of the validation query (lines 74-80): the triple-quoted COUNT
template with only the full table name interpolated. -/
def validationQueryText (full_table_name : String) : String :=
  "\n        SELECT COUNT(*) as count\n        FROM `" ++ full_table_name ++
    "`\n        WHERE Owner = @hostname\n          AND Mac_Address = @mac_address\n          AND LLA = @LLA\n        "

/-- Query text and parameter list built by validate_sensor_lla
(lines 52-89 of the source). -/
def validationQuery (hostname mac_address LLA : String) :
    String × List ScalarQueryParameter :=
  (validationQueryText (fullTableName (resolveTable hostname mac_address)),
   [ScalarQueryParameter.string "hostname" hostname,
    ScalarQueryParameter.string "mac_address" mac_address,
    ScalarQueryParameter.string "LLA" LLA])

/-- The validate_sensor_lla helper (lines 29-174). The exec argument stands
for the warehouse client: it receives the built query text and parameters and
yields the backend outcome. Every outcome is mapped to a structured
ValidationResult; none raises. -/
def validate_sensor_lla (hostname mac_address LLA : String)
    (exec : String → List ScalarQueryParameter → ValidationExecOutcome) :
    ValidationResult :=
  let q := validationQuery hostname mac_address LLA
  match exec q.1 q.2 with
  | ValidationExecOutcome.success count =>
    if count ≥ 1 then
      { is_valid := true,
        message :=
          if count > 1 then
            "LLA found in metadata (exists in " ++ toString count ++ " record(s))"
          else "LLA found in metadata",
        error := none }
    else
      { is_valid := false, message := "LLA not found in metadata", error := none }
  | ValidationExecOutcome.notFound _ =>
      { is_valid := false,
        message := "Metadata table not found for MAC address: " ++ mac_address,
        error := some ("Metadata table not found: " ++
          fullTableName (resolveTable hostname mac_address)) }
  | ValidationExecOutcome.googleCloudError msg =>
      { is_valid := false, message := "Validation failed",
        error := some ("BigQuery error: " ++ msg) }
  | ValidationExecOutcome.otherError msg =>
      { is_valid := false, message := "Validation failed",
        error := some ("Error validating LLA: " ++ msg) }

/-- HTTPException raised by the endpoints, with its status code and detail. -/
structure HTTPException where
  status_code : Nat
  detail : String
deriving DecidableEq

/-- Response dict of the dump endpoint query_metadata_table (lines 223-233). -/
structure DumpResponse where
  success : Bool
  project : String
  dataset : String
  table : String
  full_table : String
  limit : Int
  offset : Int
  count : Nat
  data : List Row
deriving DecidableEq

/-- Backend outcome for the dump endpoint. Its except clauses catch
GoogleCloudError and any other exception; both become HTTP 500. -/
inductive DumpExecOutcome where
  | success (rows : List Row)
  | googleCloudError (msg : String)
  | otherError (msg : String)
deriving DecidableEq

/-- Text of the dump query (lines 207-212): SELECT star with the caller
supplied limit and offset interpolated directly, no validation or clamping. -/
def dumpQueryText (full_table_name : String) (limit offset : Int) : String :=
  "\n        SELECT *\n        FROM `" ++ full_table_name ++ "`\n        LIMIT " ++
    toString limit ++ "\n        OFFSET " ++ toString offset ++ "\n        "

/-- The dump endpoint query_metadata_table (lines 178-238). dataset and table
come directly from the caller; limit and offset pass through to the query. -/
def query_metadata_table (dataset table : String) (limit offset : Int)
    (exec : String → DumpExecOutcome) : Except HTTPException DumpResponse :=
  let full_table_name := PROJECT_ID ++ "." ++ dataset ++ "." ++ table
  match exec (dumpQueryText full_table_name limit offset) with
  | DumpExecOutcome.success rows =>
      Except.ok
        { success := true, project := PROJECT_ID, dataset := dataset,
          table := table, full_table := full_table_name, limit := limit,
          offset := offset, count := rows.length, data := rows }
  | DumpExecOutcome.googleCloudError msg =>
      Except.error { status_code := 500, detail := "BigQuery error: " ++ msg }
  | DumpExecOutcome.otherError msg =>
      Except.error { status_code := 500, detail := "Error querying table: " ++ msg }

/-- Python truthiness of an optional string argument: None and the empty
string are falsy (the `if lla` and `if experiment` tests, lines 303 and 308). -/
def pyTruthy : Option String → Bool
  | none => false
  | some s => !(s == "")

/-- Value of an optional argument inside a branch guarded by its truthiness. -/
def optValue (o : Option String) : String := o.getD ""

/-- Whitespace characters stripped by Python int() around a numeral. -/
def isPySpace (c : Char) : Bool :=
  c = ' ' || c = '\t' || c = '\n' || c = '\r' || c = '\x0b' || c = '\x0c'

/-- Strip leading and trailing whitespace, as Python str.strip does. -/
def pyStrip (s : String) : String :=
  String.mk (((s.toList.dropWhile isPySpace).reverse.dropWhile isPySpace).reverse)

/-- Accumulate decimal digits; any non-digit character fails. -/
def digitsValGo : List Char → Nat → Option Nat
  | [], acc => some acc
  | c :: cs, acc =>
      if c.isDigit then digitsValGo cs (acc * 10 + (c.toNat - 48)) else none

/-- Value of a non-empty all-digit character list. -/
def digitsVal (cs : List Char) : Option Nat :=
  match cs with
  | [] => none
  | _ => digitsValGo cs 0

/-- Python int() applied to a string: optional surrounding whitespace, an
optional sign, then at least one decimal digit; anything else raises
ValueError, modelled as none. (Python also allows single underscores between
digits, but the argument here is the segment before the first underscore of
the experiment string, so it never contains one.) -/
def pyInt (s : String) : Option Int :=
  match (pyStrip s).toList with
  | [] => none
  | c :: cs =>
    if c = '-' then (digitsVal cs).map (fun n => -(n : Int))
    else if c = '+' then (digitsVal cs).map (fun n => (n : Int))
    else (digitsVal (c :: cs)).map (fun n => (n : Int))

/-- Split a character list at the first underscore, if any. -/
def breakAtUnderscore : List Char → Option (List Char × List Char)
  | [] => none
  | c :: cs =>
    if c = '_' then some ([], cs)
    else
      match breakAtUnderscore cs with
      | none => none
      | some (a, b) => some (c :: a, b)

/-- Python s.split(underscore, 1): one element when there is no separator,
otherwise the segment before the first underscore and everything after it. -/
def pySplitFirst (s : String) : List String :=
  match breakAtUnderscore s.toList with
  | none => [s]
  | some (a, b) => [String.mk a, String.mk b]

/-- Condition and parameters contributed by the experiment filter
(lines 309-321): the string splits on its first underscore into an integer id
and a name; on any parse failure the filter is dropped (warning logged). -/
def expFilterParams (experiment : String) :
    List String × List ScalarQueryParameter :=
  match pySplitFirst experiment with
  | [exp_id_str, exp_name] =>
    match pyInt exp_id_str with
    | some exp_id =>
        (["Exp_ID = @exp_id AND Exp_Name = @exp_name"],
         [ScalarQueryParameter.int64 "exp_id" exp_id,
          ScalarQueryParameter.string "exp_name" exp_name])
    | none => ([], [])
  | _ => ([], [])

/-- Conditions and parameters built by query_active_metadata
(lines 291-322): owner and device equality always, the LLA condition when lla
is truthy and all is false, the experiment conjunct when experiment is truthy,
all is false and the filter parses. -/
def listingConditionsParams (hostname mac_address : String)
    (lla experiment : Option String) (all : Bool) :
    List String × List ScalarQueryParameter :=
  let conditions := ["Owner = @hostname", "Mac_Address = @mac_address"]
  let query_parameters :=
    [ScalarQueryParameter.string "hostname" hostname,
     ScalarQueryParameter.string "mac_address" mac_address]
  let step1 :=
    if pyTruthy lla && !all then
      (conditions ++ ["LLA = @lla"],
       query_parameters ++ [ScalarQueryParameter.string "lla" (optValue lla)])
    else (conditions, query_parameters)
  if pyTruthy experiment && !all then
    let fp := expFilterParams (optValue experiment)
    (step1.1 ++ fp.1, step1.2 ++ fp.2)
  else step1

/-- Query text and parameter list of the listing endpoint (lines 324-335):
the WHERE clause joins the conditions with AND, and the ORDER BY is fixed. -/
def listingQuery (hostname mac_address : String) (lla experiment : Option String)
    (all : Bool) : String × List ScalarQueryParameter :=
  let cp := listingConditionsParams hostname mac_address lla experiment all
  let where_clause := String.intercalate " AND " cp.1
  ("\n        SELECT *\n        FROM `" ++
     fullTableName (resolveTable hostname mac_address) ++
     "`\n        WHERE " ++ where_clause ++
     "\n        ORDER BY Exp_ID, Exp_Name, LLA\n        ",
   cp.2)

/-- Response dict of the listing endpoint (lines 357-365). -/
structure ListingResponse where
  success : Bool
  project : String
  dataset : String
  table : String
  full_table : String
  count : Nat
  data : List Row
deriving DecidableEq

/-- Backend outcome for the listing endpoint: rows, the NotFound exception,
a GoogleCloudError, or any other exception (lines 343-397). -/
inductive ListingExecOutcome where
  | success (rows : List Row)
  | notFound (msg : String)
  | googleCloudError (msg : String)
  | otherError (msg : String)
deriving DecidableEq

/-- The listing endpoint query_active_metadata (lines 241-397). Table absence
raises HTTP 404; a GoogleCloudError or any other exception raises HTTP 500;
success returns the response dict with the row count. -/
def query_active_metadata (hostname mac_address : String)
    (lla experiment : Option String) (all : Bool)
    (exec : String → List ScalarQueryParameter → ListingExecOutcome) :
    Except HTTPException ListingResponse :=
  let t := resolveTable hostname mac_address
  let q := listingQuery hostname mac_address lla experiment all
  match exec q.1 q.2 with
  | ListingExecOutcome.success rows =>
      Except.ok
        { success := true, project := PROJECT_ID, dataset := t.dataset,
          table := t.table, full_table := fullTableName t,
          count := rows.length, data := rows }
  | ListingExecOutcome.notFound _ =>
      Except.error
        { status_code := 404,
          detail := "Metadata table not found: " ++ fullTableName t }
  | ListingExecOutcome.googleCloudError msg =>
      Except.error { status_code := 500, detail := "BigQuery error: " ++ msg }
  | ListingExecOutcome.otherError msg =>
      Except.error { status_code := 500, detail := "Error querying metadata: " ++ msg }

/-- The experiment filter contributes either nothing or exactly the fixed
conjunct, never anything else. -/
theorem expFilterParams_shape (e : String) :
    (expFilterParams e).1 = [] ∨
      (expFilterParams e).1 = ["Exp_ID = @exp_id AND Exp_Name = @exp_name"] := by
  unfold expFilterParams
  rcases hs : pySplitFirst e with _ | ⟨a, _ | ⟨b, _ | _⟩⟩ <;> simp_all
  rcases hi : pyInt a with _ | i <;> simp

/-- A successfully parsed experiment string yields the conjunct and its two
typed parameters. -/
theorem expFilterParams_parsed (e idStr name : String) (i : Int)
    (hs : pySplitFirst e = [idStr, name]) (hi : pyInt idStr = some i) :
    expFilterParams e
      = (["Exp_ID = @exp_id AND Exp_Name = @exp_name"],
         [ScalarQueryParameter.int64 "exp_id" i,
          ScalarQueryParameter.string "exp_name" name]) := by
  unfold expFilterParams
  rw [hs]
  simp [hi]

/-- An experiment string with no separator, or with a non-integer id segment,
contributes nothing. -/
theorem expFilterParams_dropped (e : String)
    (hd : pySplitFirst e = [e] ∨ ∃ a b, pySplitFirst e = [a, b] ∧ pyInt a = none) :
    expFilterParams e = ([], []) := by
  rcases hd with hs | ⟨a, b, hs, hi⟩
  · unfold expFilterParams
    rw [hs]
  · unfold expFilterParams
    rw [hs]
    simp [hi]

/-- With no lla, a non-empty experiment string and all false, the listing
conditions are the base plus whatever the experiment filter contributes. -/
theorem listingConditionsParams_exp_only (h m e : String) (hne : e ≠ "") :
    listingConditionsParams h m none (some e) false
      = (["Owner = @hostname", "Mac_Address = @mac_address"] ++ (expFilterParams e).1,
         [ScalarQueryParameter.string "hostname" h,
          ScalarQueryParameter.string "mac_address" m] ++ (expFilterParams e).2) := by
  have hbe : (e == "") = false := beq_eq_false_iff_ne.mpr hne
  unfold listingConditionsParams
  simp [pyTruthy, optValue, hbe]

/-- Claim C1: for a validation query that executes and returns a count row,
count equal to zero yields is_valid false with message "LLA not found in
metadata" and no error; count equal to one yields is_valid true with message
"LLA found in metadata" and no error; any count above one yields is_valid
true, no error, and a message containing the count. -/
theorem validate_count_cases (h m l : String) (count : Int) :
    (count = 0 →
      validate_sensor_lla h m l (fun _ _ => ValidationExecOutcome.success count)
        = { is_valid := false, message := "LLA not found in metadata", error := none })
    ∧ (count = 1 →
      validate_sensor_lla h m l (fun _ _ => ValidationExecOutcome.success count)
        = { is_valid := true, message := "LLA found in metadata", error := none })
    ∧ (count > 1 →
      (validate_sensor_lla h m l (fun _ _ => ValidationExecOutcome.success count)).is_valid = true
      ∧ (validate_sensor_lla h m l (fun _ _ => ValidationExecOutcome.success count)).error = none
      ∧ ∃ pre post,
          (validate_sensor_lla h m l (fun _ _ => ValidationExecOutcome.success count)).message
            = pre ++ toString count ++ post) := by
  refine ⟨?_, ?_, ?_⟩
  · rintro rfl
    rfl
  · rintro rfl
    rfl
  · intro hgt
    have hge : count ≥ 1 := by omega
    simp only [validate_sensor_lla, hge, hgt, if_true, ite_true, ge_iff_le]
    refine ⟨by simp [hge], by simp [hge], "LLA found in metadata (exists in ", " record(s))", ?_⟩
    simp [hge, hgt]

/-- Witness for claim C1 at counts 0, 1 and 5. -/
theorem validate_count_cases_witness :
    (validate_sensor_lla "f4d_test" "aaaaaaaaaaaa" "fd002124b00ccf7399b"
        (fun _ _ => ValidationExecOutcome.success 0)
      = { is_valid := false, message := "LLA not found in metadata", error := none })
    ∧ (validate_sensor_lla "f4d_test" "aaaaaaaaaaaa" "fd002124b00ccf7399b"
        (fun _ _ => ValidationExecOutcome.success 1)
      = { is_valid := true, message := "LLA found in metadata", error := none })
    ∧ ((validate_sensor_lla "f4d_test" "aaaaaaaaaaaa" "fd002124b00ccf7399b"
          (fun _ _ => ValidationExecOutcome.success 5)).is_valid = true
       ∧ (validate_sensor_lla "f4d_test" "aaaaaaaaaaaa" "fd002124b00ccf7399b"
          (fun _ _ => ValidationExecOutcome.success 5)).error = none
       ∧ ∃ pre post,
          (validate_sensor_lla "f4d_test" "aaaaaaaaaaaa" "fd002124b00ccf7399b"
            (fun _ _ => ValidationExecOutcome.success 5)).message
              = pre ++ toString (5 : Int) ++ post) :=
  ⟨(validate_count_cases "f4d_test" "aaaaaaaaaaaa" "fd002124b00ccf7399b" 0).1 rfl,
   (validate_count_cases "f4d_test" "aaaaaaaaaaaa" "fd002124b00ccf7399b" 1).2.1 rfl,
   (validate_count_cases "f4d_test" "aaaaaaaaaaaa" "fd002124b00ccf7399b" 5).2.2 (by norm_num)⟩

/-- Claim C2: the two paths treat backend failures asymmetrically. Validation
maps every backend outcome to a structured result without raising: table
absent gives is_valid false with a non-null descriptive error, and so do cloud
and generic errors. Listing raises HTTP 404 when the table is absent and
HTTP 500 on a cloud error or any other failure. -/
theorem error_path_asymmetry (h m l msg : String) (lla experiment : Option String)
    (all : Bool) :
    (validate_sensor_lla h m l (fun _ _ => ValidationExecOutcome.notFound msg)
       = { is_valid := false,
           message := "Metadata table not found for MAC address: " ++ m,
           error := some ("Metadata table not found: "
                            ++ fullTableName (resolveTable h m)) })
    ∧ (validate_sensor_lla h m l (fun _ _ => ValidationExecOutcome.googleCloudError msg)
       = { is_valid := false, message := "Validation failed",
           error := some ("BigQuery error: " ++ msg) })
    ∧ (validate_sensor_lla h m l (fun _ _ => ValidationExecOutcome.otherError msg)
       = { is_valid := false, message := "Validation failed",
           error := some ("Error validating LLA: " ++ msg) })
    ∧ (query_active_metadata h m lla experiment all
         (fun _ _ => ListingExecOutcome.notFound msg)
       = Except.error
           { status_code := 404,
             detail := "Metadata table not found: " ++ fullTableName (resolveTable h m) })
    ∧ (query_active_metadata h m lla experiment all
         (fun _ _ => ListingExecOutcome.googleCloudError msg)
       = Except.error { status_code := 500, detail := "BigQuery error: " ++ msg })
    ∧ (query_active_metadata h m lla experiment all
         (fun _ _ => ListingExecOutcome.otherError msg)
       = Except.error { status_code := 500, detail := "Error querying metadata: " ++ msg }) :=
  ⟨rfl, rfl, rfl, rfl, rfl, rfl⟩

/-- Claim C3: a listing request with all true ignores any supplied lla and
experiment values: the predicate is exactly the owner and device conditions
and the parameters are exactly hostname and mac_address. -/
theorem all_true_ignores_filters (h m : String) (lla experiment : Option String) :
    listingConditionsParams h m lla experiment true
      = (["Owner = @hostname", "Mac_Address = @mac_address"],
         [ScalarQueryParameter.string "hostname" h,
          ScalarQueryParameter.string "mac_address" m]) := by
  unfold listingConditionsParams
  simp [Bool.and_false]

/-- Claim C5: table resolution is a pure deterministic composition: the table
is the device id suffixed with underscore-metadata, the dataset is the owner,
and the rendered identifier is project.dataset.table. Purity and independence
of call order hold definitionally, the resolver being a function of its two
arguments alone. -/
theorem resolve_table_pure (owner device_id : String) :
    resolveTable owner device_id
      = { project := PROJECT_ID, dataset := owner, table := device_id ++ "_metadata" }
    ∧ fullTableName (resolveTable owner device_id)
      = PROJECT_ID ++ "." ++ owner ++ "." ++ (device_id ++ "_metadata") :=
  ⟨rfl, rfl⟩

/-- Claim C4: the experiment filter string splits on its first underscore;
when the left segment is an integer the Exp_ID and Exp_Name conjunct and its
two bound parameters are added (the name may itself contain underscores), and
when there is no separator or the id segment is not an integer the filter is
dropped without raising, leaving predicate and parameters at the owner and
device conditions only. -/
theorem experiment_filter_behavior (h m e idStr name : String) (i : Int) :
    (pySplitFirst e = [idStr, name] → pyInt idStr = some i →
      listingConditionsParams h m none (some e) false
        = (["Owner = @hostname", "Mac_Address = @mac_address",
            "Exp_ID = @exp_id AND Exp_Name = @exp_name"],
           [ScalarQueryParameter.string "hostname" h,
            ScalarQueryParameter.string "mac_address" m,
            ScalarQueryParameter.int64 "exp_id" i,
            ScalarQueryParameter.string "exp_name" name]))
    ∧ ((pySplitFirst e = [e] ∨ ∃ a b, pySplitFirst e = [a, b] ∧ pyInt a = none) →
      listingConditionsParams h m none (some e) false
        = (["Owner = @hostname", "Mac_Address = @mac_address"],
           [ScalarQueryParameter.string "hostname" h,
            ScalarQueryParameter.string "mac_address" m])) := by
  constructor
  · intro hs hi
    have hne : e ≠ "" := by
      intro h0
      subst h0
      simp [pySplitFirst, breakAtUnderscore] at hs
    rw [listingConditionsParams_exp_only h m e hne, expFilterParams_parsed e idStr name i hs hi]
    rfl
  · intro hd
    by_cases h0 : e = ""
    · subst h0
      rfl
    · rw [listingConditionsParams_exp_only h m e h0, expFilterParams_dropped e hd]
      simp

/-- Witness for claim C4: the string 12_Image_V2 parses to id 12 and name
Image_V2 and adds the conjunct; the string Image_V2 has a non-integer id
segment and is dropped. -/
theorem experiment_filter_behavior_witness :
    (listingConditionsParams "f4d_test" "aaaaaaaaaaaa" none (some "12_Image_V2") false
       = (["Owner = @hostname", "Mac_Address = @mac_address",
           "Exp_ID = @exp_id AND Exp_Name = @exp_name"],
          [ScalarQueryParameter.string "hostname" "f4d_test",
           ScalarQueryParameter.string "mac_address" "aaaaaaaaaaaa",
           ScalarQueryParameter.int64 "exp_id" 12,
           ScalarQueryParameter.string "exp_name" "Image_V2"]))
    ∧ (listingConditionsParams "f4d_test" "aaaaaaaaaaaa" none (some "Image_V2") false
       = (["Owner = @hostname", "Mac_Address = @mac_address"],
          [ScalarQueryParameter.string "hostname" "f4d_test",
           ScalarQueryParameter.string "mac_address" "aaaaaaaaaaaa"])) :=
  ⟨(experiment_filter_behavior "f4d_test" "aaaaaaaaaaaa" "12_Image_V2" "12" "Image_V2" 12).1
      (by decide) (by decide),
   (experiment_filter_behavior "f4d_test" "aaaaaaaaaaaa" "Image_V2" "Image" "V2" 0).2
      (Or.inr ⟨"Image", "V2", by decide, by decide⟩)⟩

/-- Claim C6: the three caller-controlled validation values travel only as
typed STRING bound parameters, in the order hostname, mac_address, LLA; the
query text is the fixed COUNT template varying only in the table-identifier
position, so two requests resolving to the same identifier produce identical
text. -/
theorem validation_query_parameterization (hostname mac_address LLA h2 m2 l2 : String)
    (hid : fullTableName (resolveTable hostname mac_address)
             = fullTableName (resolveTable h2 m2)) :
    (validationQuery hostname mac_address LLA).2
      = [ScalarQueryParameter.string "hostname" hostname,
         ScalarQueryParameter.string "mac_address" mac_address,
         ScalarQueryParameter.string "LLA" LLA]
    ∧ (validationQuery hostname mac_address LLA).1 = (validationQuery h2 m2 l2).1
    ∧ (validationQuery hostname mac_address LLA).1
        = "\n        SELECT COUNT(*) as count\n        FROM `"
            ++ fullTableName (resolveTable hostname mac_address)
            ++ "`\n        WHERE Owner = @hostname\n          AND Mac_Address = @mac_address\n          AND LLA = @LLA\n        " := by
  refine ⟨rfl, ?_, rfl⟩
  show validationQueryText (fullTableName (resolveTable hostname mac_address))
        = validationQueryText (fullTableName (resolveTable h2 m2))
  rw [hid]

/-- Witness for claim C6: two distinct requests resolving to the same
identifier string produce byte-identical query text, while the parameter lists
carry each request's own values. -/
theorem validation_query_parameterization_witness :
    fullTableName (resolveTable "a.b" "c") = fullTableName (resolveTable "a" "b.c")
    ∧ ((validationQuery "a.b" "c" "x").2
        = [ScalarQueryParameter.string "hostname" "a.b",
           ScalarQueryParameter.string "mac_address" "c",
           ScalarQueryParameter.string "LLA" "x"]
      ∧ (validationQuery "a.b" "c" "x").1 = (validationQuery "a" "b.c" "y").1
      ∧ (validationQuery "a.b" "c" "x").1
          = "\n        SELECT COUNT(*) as count\n        FROM `"
              ++ fullTableName (resolveTable "a.b" "c")
              ++ "`\n        WHERE Owner = @hostname\n          AND Mac_Address = @mac_address\n          AND LLA = @LLA\n        ") :=
  ⟨by decide,
   validation_query_parameterization "a.b" "c" "x" "a" "b.c" "y" (by decide)⟩

/-- Claim C7: listing-query construction is deterministic and the active
conditions appear in the fixed order owner, device, LLA, experiment; building
the query twice from the same inputs yields identical text and parameters,
the builder being a pure function of the request. -/
theorem listing_condition_order (h m : String) (lla experiment : Option String)
    (all : Bool) :
    (∃ lcond econd,
      (listingConditionsParams h m lla experiment all).1
        = ["Owner = @hostname", "Mac_Address = @mac_address"] ++ lcond ++ econd
      ∧ (lcond = [] ∨ lcond = ["LLA = @lla"])
      ∧ (econd = [] ∨ econd = ["Exp_ID = @exp_id AND Exp_Name = @exp_name"]))
    ∧ listingQuery h m lla experiment all = listingQuery h m lla experiment all := by
  refine ⟨?_, rfl⟩
  unfold listingConditionsParams
  by_cases hl : (pyTruthy lla && !all) = true
  · by_cases he : (pyTruthy experiment && !all) = true
    · rcases expFilterParams_shape (optValue experiment) with hfp | hfp
      · exact ⟨["LLA = @lla"], [], by simp [hl, he, hfp], Or.inr rfl, Or.inl rfl⟩
      · exact ⟨["LLA = @lla"], ["Exp_ID = @exp_id AND Exp_Name = @exp_name"],
          by simp [hl, he, hfp], Or.inr rfl, Or.inr rfl⟩
    · exact ⟨["LLA = @lla"], [], by simp [hl, he], Or.inr rfl, Or.inl rfl⟩
  · by_cases he : (pyTruthy experiment && !all) = true
    · rcases expFilterParams_shape (optValue experiment) with hfp | hfp
      · exact ⟨[], [], by simp [hl, he, hfp], Or.inl rfl, Or.inl rfl⟩
      · exact ⟨[], ["Exp_ID = @exp_id AND Exp_Name = @exp_name"],
          by simp [hl, he, hfp], Or.inl rfl, Or.inr rfl⟩
    · exact ⟨[], [], by simp [hl, he], Or.inl rfl, Or.inl rfl⟩

/-- Claim C8: the dump query is SELECT star with LIMIT and OFFSET interpolated
from the caller-supplied integers, passed through unvalidated: the equation
holds for every integer, negative values included, with no clamp applied
before the text reaches the backend (here observed as the exact string the
endpoint hands to its execution capability). -/
theorem dump_query_passthrough (dataset table : String) (limit offset : Int) :
    query_metadata_table dataset table limit offset
        (fun q => DumpExecOutcome.otherError q)
      = Except.error
          { status_code := 500,
            detail := "Error querying table: "
              ++ ("\n        SELECT *\n        FROM `"
                    ++ (PROJECT_ID ++ "." ++ dataset ++ "." ++ table)
                    ++ "`\n        LIMIT " ++ toString limit
                    ++ "\n        OFFSET " ++ toString offset ++ "\n        ") } :=
  rfl

/-- Claim C9: at the listing interface an empty-string lla or experiment is
treated exactly like an absent one, the presence test being string
truthiness: with all false, the built conditions and parameters coincide with
those of the request with the filter missing. -/
theorem empty_filter_like_absent (h m : String) (lla experiment : Option String) :
    listingConditionsParams h m (some "") experiment false
      = listingConditionsParams h m none experiment false
    ∧ listingConditionsParams h m lla (some "") false
      = listingConditionsParams h m lla none false :=
  ⟨rfl, rfl⟩

/-- Claim C10: every successful dump or listing response has success true, a
count field equal to the length of its data field, and echoes the project,
dataset and table identifiers used to build the query. -/
theorem response_count_invariant (h m dataset table : String) (limit offset : Int)
    (lla experiment : Option String) (all : Bool) (rows rows2 : List Row) :
    query_metadata_table dataset table limit offset
        (fun _ => DumpExecOutcome.success rows)
      = Except.ok
          { success := true, project := PROJECT_ID, dataset := dataset,
            table := table,
            full_table := PROJECT_ID ++ "." ++ dataset ++ "." ++ table,
            limit := limit, offset := offset,
            count := rows.length, data := rows }
    ∧ query_active_metadata h m lla experiment all
        (fun _ _ => ListingExecOutcome.success rows2)
      = Except.ok
          { success := true, project := PROJECT_ID, dataset := h,
            table := m ++ "_metadata",
            full_table := PROJECT_ID ++ "." ++ h ++ "." ++ (m ++ "_metadata"),
            count := rows2.length, data := rows2 } :=
  ⟨rfl, rfl⟩
